import Mathlib

/-!
Shallow embedding of the crawl orchestrator of `arachnid/crawler/crawler.py`
(class `Crawler`, together with `CrawlerConfig`).  The collaborators that are
referenced but whose code is outside the excerpt (`Scheduler`, `Scraper`,
`CrawlerURL`, `url_functions`, `responseparser`, `warning_issuer`, the driver
loop) are modelled from the spec as explicit boundaries: per-cycle inputs in a
`CycleEnv`, abstract URL-model functions in a `UrlModel` record, and
spec-modelled definitions marked as such in their doc comments.

A crawl cycle (`Crawler.crawl_next`) is embedded as a pure function from the
environment of the cycle to an ordered trace of observable events (warnings,
`report_found_urls` calls, records appended to the output accumulator, the
`end()` call) together with the recomputed politeness delay and the boolean
result of the cycle.
-/

namespace Arachnid

/-- Python substring test helper: whether `sub` occurs at the head of `l`. -/
def listHasPrefixChars : List Char → List Char → Bool
  | _, [] => true
  | [], _ :: _ => false
  | a :: as, b :: bs => a == b && listHasPrefixChars as bs

/-- Python substring test helper: whether `sub` occurs anywhere in `l`. -/
def charsContain : List Char → List Char → Bool
  | [], sub => sub.isEmpty
  | a :: t, sub => listHasPrefixChars (a :: t) sub || charsContain t sub

/-- The Python `sub in s` test on strings (substring containment),
used by `crawl_next` for `"text/html" in r.headers["content-type"]`. -/
def pyContains (s sub : String) : Bool := charsContain s.data sub.data

/-- The Python `page.replace(" ", "%20")` from `Crawler._parse_page`. -/
def encodeSpaces (s : String) : String :=
  ⟨s.data.foldr (fun c acc => if c == ' ' then '%' :: '2' :: '0' :: acc else c :: acc) []⟩

/-- The Python `url_parts.path.split("/")[-1]` from `Crawler._parse_page`
(title fallback: the last path segment). -/
def lastPathSegment (p : String) : String := (p.splitOn "/").getLastD ""

/-- Python truthiness of an optional string (`None` and `""` are falsy),
used for `if self.config.custom_regex` and `if self.config.custom_str`. -/
def pyTruthy : Option String → Bool
  | none => false
  | some s => !(s == "")

/-- Modelled from the spec: missing `CrawlerURL` class (URL Model).  It
normalizes a raw URL into a scope-aware value carrying netloc, path, the
extension derived from the final path segment, and the fuzz/robots flags.
We record the raw url, the `allow_query` policy flag and those derived
attributes as data; the accessors `get_url`, `get_netloc`,
`get_url_parts().path`, `get_extension`, `is_fuzzed`, `in_robots` of the
source become field projections. -/
structure CrawlerURL where
  url : String
  allow_query : Bool
  netloc : String
  path : String
  extension : String
  is_fuzzed : Bool
  in_robots : Bool
deriving DecidableEq, Repr

/-- Modelled from the spec: the missing URL-model functions
(`url_functions.join_url` and the normalization inside `CrawlerURL.__init__`)
as an abstract boundary: `join_url` resolves a possibly-relative reference
against a base absolute URL, and the `parse*` fields derive netloc, path and
extension from an absolute URL.  All theorems are stated for every such
boundary. -/
structure UrlModel where
  join_url : String → String → String
  parseNetloc : String → String
  parsePath : String → String
  parseExt : String → String

/-- The `CrawlerURL(url, allow_query=...)` constructor call of
`Crawler._parse_page`, with the derived attributes supplied by the abstract
URL model; fuzz/robots flags are false for organically discovered links. -/
def CrawlerURL.fromUrl (m : UrlModel) (u : String) (aq : Bool) : CrawlerURL :=
  { url := u, allow_query := aq, netloc := m.parseNetloc u, path := m.parsePath u,
    extension := m.parseExt u, is_fuzzed := false, in_robots := false }

/-- A fetched HTTP response as `crawl_next` consumes it: status code, the
`content-type` header when present (`none` models absence of the key), and
the size/extension attributes the document parser reads. -/
structure Response where
  status_code : Nat
  content_type : Option String
  extension : String
  size : Nat
deriving DecidableEq, Repr

/-- Modelled from the spec: the results of the missing `Scraper` (HTML
extraction variant) on one page, as data: the pattern scans
(`find_all_emails`, `find_all_phones`, `find_all_social`, `find_all_regex`),
`find_all_http_refs` (raw href/src references in order of first appearance),
`title` (`none` when the document has no title tag) and the
`string_occurances` count for the configured custom string. -/
structure ScrapedData where
  emails : List String
  phones : List String
  socials : List String
  regexMatches : List String
  refs : List String
  title : Option String
  stringOcc : Nat

/-- The `CrawlerConfig` of `crawler.py` (fields read by the crawl cycle);
`documents` is the recognized document-extension set, `default_delay` the
configured delay list sampled by `random.choice`. -/
structure CrawlerConfig where
  scrape_links : Bool
  scrape_subdomains : Bool
  scrape_phone_number : Bool
  scrape_email : Bool
  scrape_social_media : Bool
  documents : List String
  obey_robots : Bool
  allow_query : Bool
  agent : String
  custom_str : Option String
  custom_str_case_sensitive : Bool
  custom_regex : Option String
  default_delay : List Nat
  blacklisted_directories : List String

/-- The `page_info` dictionary built by `Crawler._parse_page`.  Note the
source stores `c_url.get_extension()` under the `"path"` key. -/
structure PageInfo where
  path : String
  title : String
  custom_string_occurances : Option Nat
  on_fuzz_list : Bool
  on_robots : Bool
  code : Nat
deriving DecidableEq, Repr

/-- The document metadata record produced by `Crawler._parse_document`:
the extracted size and declared type, plus the `data["path"]` field set from
`c_url.get_url_parts().path`. -/
structure DocRecord where
  size : Nat
  dtype : String
  path : String
deriving DecidableEq, Repr

/-- Observable effects of one crawl cycle, in program order: the status-code
check and the warnings it may emit, the dispatch to an extraction variant,
appends to the output accumulator, calls to `Scheduler.report_found_urls`,
and the `DomainData.end()` call of the terminal cycle. -/
inductive Event where
  | statusCheck (code : Nat) (url : String)
  | warned (msg : String) (url : String)
  | dispatchedPage (url : String)
  | dispatchedDocument (url : String)
  | addedEmail (e : String)
  | addedPhone (p : String)
  | addedSocial (s : String)
  | addedRegexMatch (s : String)
  | reported (found : List CrawlerURL)
  | addedPage (netloc : String) (info : PageInfo)
  | addedDocument (netloc : String) (doc : DocRecord)
  | ended
deriving DecidableEq, Repr

/-- Environment of one crawl cycle: the answer of `Scheduler.next_url()`, the
outcome of `requests.get` (`Except.error` models a raised transport
exception), the outcome of building the `Scraper` over the body
(`Except.error` models a parse failure raised inside extraction), the
`random.choice` oracle index, and the value of `Scheduler.get_crawl_delay()`. -/
structure CycleEnv where
  next_url : Option CrawlerURL
  fetch : Except String Response
  scrape : Except String ScrapedData
  choice_ix : Nat
  s_delay : Nat

/-- The anomaly test of the status-code rule of the spec: client or server error
(4xx/5xx). -/
def anomalous_code (code : Nat) : Bool := 400 ≤ code && code < 600

/-- The warning message tag for an anomalous status code. -/
def statusWarnMsg (code : Nat) : String := "status " ++ toString code

/-- Modelled from the spec: missing
`warning_issuer.issue_warning_from_status_code`.  It records the HTTP status
code and, if the code indicates an anomaly (client/server error), emits a
warning tagged with the URL. -/
def issue_warning_from_status_code (code : Nat) (url : String) : List Event :=
  Event.statusCheck code url ::
    (if anomalous_code code then [Event.warned (statusWarnMsg code) url] else [])

/-- Modelled from the spec: missing
`warning_issuer.issue_warning_from_exception`: every contained failure emits
a warning tagged with the offending URL and a human-readable cause. -/
def issue_warning_from_exception (e : String) (url : String) : List Event :=
  [Event.warned e url]

/-- Modelled from the spec: missing
`responseparser.DocumentResponse(...).extract()` (document extraction
variant): returns a metadata record (size, declared type) only if the
extension of the response is in the recognized set; returns nothing (no record,
no error) otherwise. -/
def documentExtract (r : Response) (docs : List String) : Option (Nat × String) :=
  if r.extension ∈ docs then some (r.size, r.content_type.getD "") else none

/-- The Python `random.choice(l)` parametrized by an oracle index `i`; for a
nonempty list the result is always an element of the list. -/
def random_choice (l : List Nat) (i : Nat) : Nat := l.getD (i % l.length) 0

/-- `Crawler._update_crawl_delay`: the new timer duration is
`default_delay if default_delay > s_delay else s_delay` where
`default_delay = random.choice(config.default_delay)` and `s_delay` is
`Scheduler.get_crawl_delay()`. -/
def update_crawl_delay (config : CrawlerConfig) (i : Nat) (s_delay : Nat) : Nat :=
  let default_delay := random_choice config.default_delay i
  if default_delay > s_delay then default_delay else s_delay

/-- `Crawler._parse_page`: scrape signals per configuration, build the list
of found URLs (strip, percent-encode spaces, resolve against the visited
URL, wrap in `CrawlerURL` with the query policy), report them to the
scheduler, then append the page record. -/
def parse_page (m : UrlModel) (config : CrawlerConfig) (scraped : ScrapedData)
    (response : Response) (c_url : CrawlerURL) : List Event :=
  let emailEvents := if config.scrape_email then scraped.emails.map Event.addedEmail else []
  let phoneEvents := if config.scrape_phone_number then scraped.phones.map Event.addedPhone else []
  let socialEvents :=
    if config.scrape_social_media then scraped.socials.map Event.addedSocial else []
  let regexEvents :=
    if pyTruthy config.custom_regex then scraped.regexMatches.map Event.addedRegexMatch else []
  let found_c_urls :=
    if config.scrape_links then
      scraped.refs.map (fun page =>
        CrawlerURL.fromUrl m (m.join_url c_url.url (encodeSpaces page.trim)) config.allow_query)
    else []
  let page_info : PageInfo :=
    { path := c_url.extension
      title :=
        match scraped.title with
        | some t => if t == "" then lastPathSegment c_url.path else t
        | none => lastPathSegment c_url.path
      custom_string_occurances :=
        if pyTruthy config.custom_str then some scraped.stringOcc else none
      on_fuzz_list := c_url.is_fuzzed
      on_robots := c_url.in_robots
      code := response.status_code }
  emailEvents ++ phoneEvents ++ socialEvents ++ regexEvents ++
    [Event.reported found_c_urls, Event.addedPage c_url.netloc page_info]

/-- `Crawler._parse_document`: run the document extractor, report an empty
found-URL list to the scheduler, and append a document record (with the
path of the visited URL) only when the extractor returned data. -/
def parse_document (config : CrawlerConfig) (response : Response)
    (c_url : CrawlerURL) : List Event :=
  let data := documentExtract response config.documents
  Event.reported [] ::
    (match data with
     | some d => [Event.addedDocument c_url.netloc ⟨d.1, d.2, c_url.path⟩]
     | none => [])

/-- The `try:` block of `Crawler.crawl_next` (lines 92-98): fetch, status
check, then content-type dispatch.  Returns the events emitted before any
raised exception together with the exception, if one was raised. -/
def tryBody (m : UrlModel) (config : CrawlerConfig) (env : CycleEnv)
    (c_url : CrawlerURL) : List Event × Option String :=
  match env.fetch with
  | Except.error e => ([], some e)
  | Except.ok r =>
    let statusEvents := issue_warning_from_status_code r.status_code c_url.url
    match r.content_type with
    | none => (statusEvents, none)
    | some ct =>
      if pyContains ct "text/html" then
        match env.scrape with
        | Except.error e => (statusEvents ++ [Event.dispatchedPage c_url.url], some e)
        | Except.ok scraped =>
          (statusEvents ++ Event.dispatchedPage c_url.url ::
            parse_page m config scraped r c_url, none)
      else
        (statusEvents ++ Event.dispatchedDocument c_url.url ::
          parse_document config r c_url, none)

/-- Outcome of one `crawl_next` call: its event trace, the recomputed
politeness delay (`none` when `_update_crawl_delay` did not run, i.e. in the
terminal cycle) and the boolean result. -/
structure CycleResult where
  events : List Event
  newDelay : Option Nat
  result : Bool
deriving DecidableEq, Repr

/-- `Crawler.crawl_next`: ask the scheduler for the next URL; on `None`,
call `finish()` (which calls the `end()` of the accumulator) and return `False`;
otherwise run the `try:` block, convert any raised exception into a warning
plus an empty `report_found_urls` call, recompute the crawl delay and return
`True`. -/
def crawl_next (m : UrlModel) (config : CrawlerConfig) (env : CycleEnv) : CycleResult :=
  match env.next_url with
  | none => { events := [Event.ended], newDelay := none, result := false }
  | some c_url =>
    let body := tryBody m config env c_url
    let events :=
      match body.2 with
      | some e => body.1 ++ issue_warning_from_exception e c_url.url ++ [Event.reported []]
      | none => body.1
    { events := events
      newDelay := some (update_crawl_delay config env.choice_ix env.s_delay)
      result := true }

/-- Modelled from the spec: the missing driver loop of the orchestrator
(`Ready → ... → Ready` until `Finished`): call `crawl_next` repeatedly until
it returns `False`; each list element is the environment of one cycle. -/
def crawl_loop (m : UrlModel) (config : CrawlerConfig) : List CycleEnv → List Event
  | [] => []
  | env :: rest =>
    let r := crawl_next m config env
    if r.result then r.events ++ crawl_loop m config rest else r.events

/-- The sequence of `report_found_urls` calls visible in a trace. -/
def reportedLists (events : List Event) : List (List CrawlerURL) :=
  events.filterMap (fun ev => match ev with | Event.reported l => some l | _ => none)

/-- Whether an event is a dispatch to an extraction variant. -/
def isDispatchEvent : Event → Bool
  | Event.dispatchedPage _ => true
  | Event.dispatchedDocument _ => true
  | _ => false

/-- Whether an event appends a page or document record to the accumulator. -/
def isRecordEvent : Event → Bool
  | Event.addedPage _ _ => true
  | Event.addedDocument _ _ => true
  | _ => false

/-- Whether an event appends a document record to the accumulator. -/
def isDocRecordEvent : Event → Bool
  | Event.addedDocument _ _ => true
  | _ => false

/-- Whether an event appends a page record to the accumulator. -/
def isPageRecordEvent : Event → Bool
  | Event.addedPage _ _ => true
  | _ => false

/-- Number of `DomainData.end()` calls in a trace. -/
def endedCount (events : List Event) : Nat :=
  events.countP (fun ev => ev == Event.ended)

/-! Concrete instances used to witness the theorems on explicit inputs. -/

/-- A concrete URL-model boundary instance. -/
def mTriv : UrlModel :=
  { join_url := fun b r => b ++ "/" ++ r
    parseNetloc := fun _ => "x.com"
    parsePath := fun _ => "/a"
    parseExt := fun _ => "" }

/-- A concrete configuration instance. -/
def cfgTriv : CrawlerConfig :=
  { scrape_links := true, scrape_subdomains := true, scrape_phone_number := true
    scrape_email := true, scrape_social_media := true
    documents := ["pdf", "zip"]
    obey_robots := true, allow_query := true, agent := "ua"
    custom_str := none, custom_str_case_sensitive := false, custom_regex := none
    default_delay := [2, 5]
    blacklisted_directories := [] }

/-- A concrete dequeued URL. -/
def urlA : CrawlerURL :=
  { url := "https://x.com/a", allow_query := true, netloc := "x.com", path := "/a"
    extension := "", is_fuzzed := false, in_robots := false }

/-- A concrete HTML response. -/
def respHtml : Response :=
  { status_code := 200, content_type := some "text/html; charset=utf-8"
    extension := "", size := 0 }

/-- A concrete non-HTML (zip document) response with an anomalous status. -/
def respZip : Response :=
  { status_code := 404, content_type := some "application/zip"
    extension := "zip", size := 10 }

/-- A concrete response with no `content-type` header. -/
def respNoCT : Response :=
  { status_code := 200, content_type := none, extension := "", size := 3 }

/-- Concrete scraper results. -/
def sdA : ScrapedData :=
  { emails := ["a@x.com"], phones := [], socials := [], regexMatches := []
    refs := [" b c ", "d"], title := none, stringOcc := 0 }

/-- Terminal-cycle environment (frontier exhausted). -/
def envEnd : CycleEnv :=
  { next_url := none, fetch := Except.error "n/a", scrape := Except.error "n/a"
    choice_ix := 0, s_delay := 0 }

/-- Environment whose fetch raises a transport error. -/
def envFail : CycleEnv :=
  { next_url := some urlA, fetch := Except.error "timeout", scrape := Except.error "n/a"
    choice_ix := 1, s_delay := 3 }

/-- Environment with a successful HTML fetch and scrape. -/
def envHtml : CycleEnv :=
  { next_url := some urlA, fetch := Except.ok respHtml, scrape := Except.ok sdA
    choice_ix := 0, s_delay := 7 }

/-- Environment where the parse of the HTML body raises. -/
def envHtmlBad : CycleEnv :=
  { next_url := some urlA, fetch := Except.ok respHtml, scrape := Except.error "bad markup"
    choice_ix := 0, s_delay := 0 }

/-- Environment with a successful non-HTML (document) fetch. -/
def envZip : CycleEnv :=
  { next_url := some urlA, fetch := Except.ok respZip, scrape := Except.error "n/a"
    choice_ix := 3, s_delay := 1 }

/-- Environment whose response lacks a `content-type` header. -/
def envNoCT : CycleEnv :=
  { next_url := some urlA, fetch := Except.ok respNoCT, scrape := Except.error "n/a"
    choice_ix := 0, s_delay := 2 }

/-! Helper lemmas shared by the claim theorems. -/

/-- For a nonempty list, `random.choice` returns an element of the list. -/
theorem random_choice_mem (l : List Nat) (i : Nat) (h : l ≠ []) :
    random_choice l i ∈ l := by
  have hlen : 0 < l.length := List.length_pos.mpr h
  have hlt : i % l.length < l.length := Nat.mod_lt _ hlen
  unfold random_choice
  rw [List.getD_eq_getElem l 0 hlt]
  exact List.getElem_mem hlt

/-- The recomputed crawl delay is the maximum of the sampled default delay
and the delay of the scheduler. -/
theorem update_crawl_delay_eq_max (config : CrawlerConfig) (i s : Nat) :
    update_crawl_delay config i s = max (random_choice config.default_delay i) s := by
  show (if random_choice config.default_delay i > s then
      random_choice config.default_delay i else s) = _
  rw [Nat.max_def]
  split <;> split <;> omega

/-- C1: in every crawl cycle the effective politeness delay equals the
maximum of a default delay freshly sampled from the configured delay list
and the robots-declared crawl delay of the scheduler; it is ≥ both and equals
one of them, and every non-terminal `crawl_next` cycle installs exactly this
value as the new timer duration. -/
theorem crawl_delay_is_max (m : UrlModel) (config : CrawlerConfig) (env : CycleEnv)
    (c : CrawlerURL) (hne : config.default_delay ≠ []) :
    random_choice config.default_delay env.choice_ix ∈ config.default_delay ∧
    update_crawl_delay config env.choice_ix env.s_delay =
      max (random_choice config.default_delay env.choice_ix) env.s_delay ∧
    random_choice config.default_delay env.choice_ix ≤
      update_crawl_delay config env.choice_ix env.s_delay ∧
    env.s_delay ≤ update_crawl_delay config env.choice_ix env.s_delay ∧
    (update_crawl_delay config env.choice_ix env.s_delay =
       random_choice config.default_delay env.choice_ix ∨
     update_crawl_delay config env.choice_ix env.s_delay = env.s_delay) ∧
    (env.next_url = some c →
      (crawl_next m config env).newDelay =
        some (update_crawl_delay config env.choice_ix env.s_delay)) := by
  refine ⟨random_choice_mem _ _ hne,
    update_crawl_delay_eq_max config env.choice_ix env.s_delay, ?_, ?_, ?_, ?_⟩
  · rw [update_crawl_delay_eq_max]; exact le_max_left _ _
  · rw [update_crawl_delay_eq_max]; exact le_max_right _ _
  · rw [update_crawl_delay_eq_max]; exact max_choice _ _
  · intro h
    simp [crawl_next, h]

/-- Witness for C1 at a concrete configuration and environment. -/
theorem crawl_delay_is_max_witness :
    update_crawl_delay cfgTriv envHtml.choice_ix envHtml.s_delay =
      max (random_choice cfgTriv.default_delay envHtml.choice_ix) envHtml.s_delay ∧
    random_choice cfgTriv.default_delay envHtml.choice_ix ∈ cfgTriv.default_delay :=
  ⟨(crawl_delay_is_max mTriv cfgTriv envHtml urlA (by decide)).2.1,
   (crawl_delay_is_max mTriv cfgTriv envHtml urlA (by decide)).1⟩

/-- C2: a transport failure raised while fetching a dequeued URL yields a
warning tagged with that URL and exactly one `report_found_urls` call with
the empty list; the cycle still recomputes the delay and returns `True`
(the crawl continues). -/
theorem transport_failure_recoverable (m : UrlModel) (config : CrawlerConfig)
    (env : CycleEnv) (c : CrawlerURL) (e : String)
    (hn : env.next_url = some c) (hf : env.fetch = Except.error e) :
    (crawl_next m config env).events = [Event.warned e c.url, Event.reported []] ∧
    reportedLists (crawl_next m config env).events = [[]] ∧
    (crawl_next m config env).result = true ∧
    (crawl_next m config env).newDelay =
      some (update_crawl_delay config env.choice_ix env.s_delay) := by
  simp [crawl_next, hn, tryBody, hf, issue_warning_from_exception, reportedLists]

/-- Witness for C2 at a concrete timed-out fetch. -/
theorem transport_failure_recoverable_witness :
    (crawl_next mTriv cfgTriv envFail).events =
      [Event.warned "timeout" urlA.url, Event.reported []] :=
  (transport_failure_recoverable mTriv cfgTriv envFail urlA "timeout" rfl rfl).1

/-- C9: a fetched response with no `content-type` header invokes neither
extraction variant, appends no record, makes no `report_found_urls` call,
yet the cycle still recomputes the delay and signals that the crawl
continues. -/
theorem no_content_type_skips_extraction (m : UrlModel) (config : CrawlerConfig)
    (env : CycleEnv) (c : CrawlerURL) (r : Response)
    (hn : env.next_url = some c) (hf : env.fetch = Except.ok r)
    (hct : r.content_type = none) :
    (crawl_next m config env).events = issue_warning_from_status_code r.status_code c.url ∧
    reportedLists (crawl_next m config env).events = [] ∧
    (crawl_next m config env).events.countP isDispatchEvent = 0 ∧
    (crawl_next m config env).events.countP isRecordEvent = 0 ∧
    (crawl_next m config env).newDelay =
      some (update_crawl_delay config env.choice_ix env.s_delay) ∧
    (crawl_next m config env).result = true := by
  have hev : (crawl_next m config env).events =
      issue_warning_from_status_code r.status_code c.url := by
    simp [crawl_next, hn, tryBody, hf, hct]
  refine ⟨hev, ?_, ?_, ?_, ?_, ?_⟩
  · rw [hev]
    unfold issue_warning_from_status_code reportedLists
    split <;> simp
  · rw [hev]
    unfold issue_warning_from_status_code
    split <;> simp [isDispatchEvent]
  · rw [hev]
    unfold issue_warning_from_status_code
    split <;> simp [isRecordEvent]
  · simp [crawl_next, hn]
  · simp [crawl_next, hn]

/-- Witness for C9 at a concrete header-less response. -/
theorem no_content_type_skips_extraction_witness :
    (crawl_next mTriv cfgTriv envNoCT).events =
      issue_warning_from_status_code respNoCT.status_code urlA.url :=
  (no_content_type_skips_extraction mTriv cfgTriv envNoCT urlA respNoCT rfl rfl rfl).1

/-- C10: `crawl_next` is a total function of its cycle environment (no
exception escapes it); its result is `False` exactly when the scheduler
returned no URL, and whenever the fetch/parse body raised, the trace is the
partial trace followed by a warning tagged with the URL and an empty
`report_found_urls` call. -/
theorem crawl_next_never_raises (m : UrlModel) (config : CrawlerConfig) (env : CycleEnv) :
    ((crawl_next m config env).result = false ↔ env.next_url = none) ∧
    (∀ c e, env.next_url = some c → (tryBody m config env c).2 = some e →
      (crawl_next m config env).events =
        (tryBody m config env c).1 ++ [Event.warned e c.url, Event.reported []]) := by
  constructor
  · cases hn : env.next_url with
    | none => simp [crawl_next, hn]
    | some c => simp [crawl_next, hn]
  · intro c e hn he
    simp [crawl_next, hn, he, issue_warning_from_exception]

/-- Witness for C10 at a concrete failing fetch. -/
theorem crawl_next_never_raises_witness :
    (crawl_next mTriv cfgTriv envFail).events =
      (tryBody mTriv cfgTriv envFail urlA).1 ++
        [Event.warned "timeout" urlA.url, Event.reported []] :=
  (crawl_next_never_raises mTriv cfgTriv envFail).2 urlA "timeout" rfl rfl

theorem status_events_shape (code : Nat) (url : String) :
    ∀ ev ∈ issue_warning_from_status_code code url,
      ev = Event.statusCheck code url ∨ ev = Event.warned (statusWarnMsg code) url := by
  intro ev h
  unfold issue_warning_from_status_code at h
  revert h
  split <;> simp <;> tauto

theorem mem_of_mem_ite_nil {α : Type} {c : Prop} [Decidable c] {l : List α} {a : α}
    (h : a ∈ (if c then l else [])) : a ∈ l := by
  split at h
  · exact h
  · exact absurd h (List.not_mem_nil a)

theorem parse_page_events_shape (m : UrlModel) (config : CrawlerConfig)
    (sd : ScrapedData) (r : Response) (c : CrawlerURL) :
    ∀ ev ∈ parse_page m config sd r c,
      (∃ x, ev = Event.addedEmail x) ∨ (∃ x, ev = Event.addedPhone x) ∨
      (∃ x, ev = Event.addedSocial x) ∨ (∃ x, ev = Event.addedRegexMatch x) ∨
      (∃ l, ev = Event.reported l) ∨ (∃ n i, ev = Event.addedPage n i) := by
  intro ev h
  simp only [parse_page, List.mem_append, List.mem_cons, List.not_mem_nil, or_false] at h
  rcases h with (((h | h) | h) | h) | h | h
  · obtain ⟨x, -, rfl⟩ := List.mem_map.mp (mem_of_mem_ite_nil h)
    exact Or.inl ⟨x, rfl⟩
  · obtain ⟨x, -, rfl⟩ := List.mem_map.mp (mem_of_mem_ite_nil h)
    exact Or.inr (Or.inl ⟨x, rfl⟩)
  · obtain ⟨x, -, rfl⟩ := List.mem_map.mp (mem_of_mem_ite_nil h)
    exact Or.inr (Or.inr (Or.inl ⟨x, rfl⟩))
  · obtain ⟨x, -, rfl⟩ := List.mem_map.mp (mem_of_mem_ite_nil h)
    exact Or.inr (Or.inr (Or.inr (Or.inl ⟨x, rfl⟩)))
  · exact Or.inr (Or.inr (Or.inr (Or.inr (Or.inl ⟨_, h⟩))))
  · exact Or.inr (Or.inr (Or.inr (Or.inr (Or.inr ⟨_, _, h⟩))))

theorem parse_document_events_shape (config : CrawlerConfig) (r : Response)
    (c : CrawlerURL) :
    ∀ ev ∈ parse_document config r c,
      ev = Event.reported [] ∨ (∃ n d, ev = Event.addedDocument n d) := by
  intro ev h
  unfold parse_document at h
  rcases hd : documentExtract r config.documents with _ | d <;>
    rw [hd] at h <;> simp at h <;> tauto

theorem ended_notin_status (code : Nat) (url : String) :
    Event.ended ∉ issue_warning_from_status_code code url := by
  unfold issue_warning_from_status_code
  split <;> simp

theorem ended_notin_parse_page (m : UrlModel) (config : CrawlerConfig)
    (sd : ScrapedData) (r : Response) (c : CrawlerURL) :
    Event.ended ∉ parse_page m config sd r c := by
  intro h
  rcases parse_page_events_shape m config sd r c _ h with
    ⟨x, h⟩ | ⟨x, h⟩ | ⟨x, h⟩ | ⟨x, h⟩ | ⟨l, h⟩ | ⟨n, i, h⟩ <;> exact Event.noConfusion h

theorem ended_notin_parse_document (config : CrawlerConfig) (r : Response)
    (c : CrawlerURL) :
    Event.ended ∉ parse_document config r c := by
  intro h
  rcases parse_document_events_shape config r c _ h with h | ⟨n, d, h⟩ <;>
    exact Event.noConfusion h

theorem ended_notin_tryBody (m : UrlModel) (config : CrawlerConfig)
    (env : CycleEnv) (c : CrawlerURL) :
    Event.ended ∉ (tryBody m config env c).1 := by
  rcases hf : env.fetch with e | r
  · simp [tryBody, hf]
  · rcases hct : r.content_type with _ | ct
    · simp [tryBody, hf, hct, ended_notin_status]
    · by_cases hhtml : pyContains ct "text/html"
      · rcases hs : env.scrape with e | sd
        · simp [tryBody, hf, hct, hhtml, hs, ended_notin_status]
        · simp [tryBody, hf, hct, hhtml, hs, ended_notin_status,
            ended_notin_parse_page m config sd r c]
      · simp only [Bool.not_eq_true] at hhtml
        simp [tryBody, hf, hct, hhtml, ended_notin_status,
          ended_notin_parse_document config r c]

theorem ended_notin_crawl_next (m : UrlModel) (config : CrawlerConfig)
    (env : CycleEnv) (c : CrawlerURL) (hn : env.next_url = some c) :
    Event.ended ∉ (crawl_next m config env).events := by
  have hbody := ended_notin_tryBody m config env c
  rcases hb : (tryBody m config env c).2 with _ | e <;>
    simp [crawl_next, hn, hb, issue_warning_from_exception, hbody]

theorem endedCount_append (l1 l2 : List Event) :
    endedCount (l1 ++ l2) = endedCount l1 + endedCount l2 := by
  simp [endedCount, List.countP_append]

theorem countP_status_zero (code : Nat) (url : String) (p : Event → Bool)
    (h1 : p (Event.statusCheck code url) = false)
    (h2 : p (Event.warned (statusWarnMsg code) url) = false) :
    (issue_warning_from_status_code code url).countP p = 0 := by
  unfold issue_warning_from_status_code
  split <;> simp [List.countP_cons, h1, h2]

theorem countP_parse_page_zero (m : UrlModel) (config : CrawlerConfig)
    (sd : ScrapedData) (r : Response) (c : CrawlerURL) (p : Event → Bool)
    (h1 : ∀ x, p (Event.addedEmail x) = false)
    (h2 : ∀ x, p (Event.addedPhone x) = false)
    (h3 : ∀ x, p (Event.addedSocial x) = false)
    (h4 : ∀ x, p (Event.addedRegexMatch x) = false)
    (h5 : ∀ l, p (Event.reported l) = false)
    (h6 : ∀ n i, p (Event.addedPage n i) = false) :
    (parse_page m config sd r c).countP p = 0 := by
  rw [List.countP_eq_zero]
  intro a ha
  rcases parse_page_events_shape m config sd r c _ ha with
    ⟨x, h⟩ | ⟨x, h⟩ | ⟨x, h⟩ | ⟨x, h⟩ | ⟨l, h⟩ | ⟨n, i, h⟩ <;>
    simp [h, h1, h2, h3, h4, h5, h6]

theorem countP_parse_document_zero (config : CrawlerConfig) (r : Response)
    (c : CrawlerURL) (p : Event → Bool)
    (h1 : ∀ l, p (Event.reported l) = false)
    (h2 : ∀ n d, p (Event.addedDocument n d) = false) :
    (parse_document config r c).countP p = 0 := by
  rw [List.countP_eq_zero]
  intro a ha
  rcases parse_document_events_shape config r c _ ha with h | ⟨n, d, h⟩ <;>
    simp [h, h1, h2]

theorem crawl_next_events_fetch_err (m : UrlModel) (config : CrawlerConfig)
    (env : CycleEnv) (c : CrawlerURL) (e : String)
    (hn : env.next_url = some c) (hf : env.fetch = Except.error e) :
    (crawl_next m config env).events = [Event.warned e c.url, Event.reported []] := by
  simp [crawl_next, hn, tryBody, hf, issue_warning_from_exception]

theorem crawl_next_events_noct (m : UrlModel) (config : CrawlerConfig)
    (env : CycleEnv) (c : CrawlerURL) (r : Response)
    (hn : env.next_url = some c) (hf : env.fetch = Except.ok r)
    (hct : r.content_type = none) :
    (crawl_next m config env).events =
      issue_warning_from_status_code r.status_code c.url := by
  simp [crawl_next, hn, tryBody, hf, hct]

theorem crawl_next_events_html_ok (m : UrlModel) (config : CrawlerConfig)
    (env : CycleEnv) (c : CrawlerURL) (r : Response) (ct : String) (sd : ScrapedData)
    (hn : env.next_url = some c) (hf : env.fetch = Except.ok r)
    (hct : r.content_type = some ct) (hhtml : pyContains ct "text/html" = true)
    (hs : env.scrape = Except.ok sd) :
    (crawl_next m config env).events =
      issue_warning_from_status_code r.status_code c.url ++
        Event.dispatchedPage c.url :: parse_page m config sd r c := by
  simp [crawl_next, hn, tryBody, hf, hct, hhtml, hs]

theorem crawl_next_events_html_err (m : UrlModel) (config : CrawlerConfig)
    (env : CycleEnv) (c : CrawlerURL) (r : Response) (ct : String) (e : String)
    (hn : env.next_url = some c) (hf : env.fetch = Except.ok r)
    (hct : r.content_type = some ct) (hhtml : pyContains ct "text/html" = true)
    (hs : env.scrape = Except.error e) :
    (crawl_next m config env).events =
      (issue_warning_from_status_code r.status_code c.url ++ [Event.dispatchedPage c.url]) ++
        [Event.warned e c.url, Event.reported []] := by
  simp [crawl_next, hn, tryBody, hf, hct, hhtml, hs, issue_warning_from_exception]

theorem crawl_next_events_doc (m : UrlModel) (config : CrawlerConfig)
    (env : CycleEnv) (c : CrawlerURL) (r : Response) (ct : String)
    (hn : env.next_url = some c) (hf : env.fetch = Except.ok r)
    (hct : r.content_type = some ct) (hhtml : pyContains ct "text/html" = false) :
    (crawl_next m config env).events =
      issue_warning_from_status_code r.status_code c.url ++
        Event.dispatchedDocument c.url :: parse_document config r c := by
  simp [crawl_next, hn, tryBody, hf, hct, hhtml]

theorem parse_document_record (config : CrawlerConfig) (r : Response) (c : CrawlerURL)
    (hx : r.extension ∈ config.documents) :
    parse_document config r c =
      [Event.reported [],
       Event.addedDocument c.netloc ⟨r.size, r.content_type.getD "", c.path⟩] := by
  unfold parse_document documentExtract
  simp [hx]

theorem parse_document_no_record (config : CrawlerConfig) (r : Response) (c : CrawlerURL)
    (hx : r.extension ∉ config.documents) :
    parse_document config r c = [Event.reported []] := by
  unfold parse_document documentExtract
  simp [hx]

theorem crawl_next_dispatch_count (m : UrlModel) (config : CrawlerConfig)
    (env : CycleEnv) (c : CrawlerURL) (r : Response) (ct : String)
    (hn : env.next_url = some c) (hf : env.fetch = Except.ok r)
    (hct : r.content_type = some ct) :
    (crawl_next m config env).events.countP isDispatchEvent = 1 := by
  have hstat := countP_status_zero r.status_code c.url isDispatchEvent rfl rfl
  by_cases hhtml : pyContains ct "text/html"
  · rcases hs : env.scrape with e | sd
    · rw [crawl_next_events_html_err m config env c r ct e hn hf hct hhtml hs]
      simp [List.countP_append, List.countP_cons, hstat, isDispatchEvent]
    · rw [crawl_next_events_html_ok m config env c r ct sd hn hf hct hhtml hs]
      have hpp := countP_parse_page_zero m config sd r c isDispatchEvent
        (fun _ => rfl) (fun _ => rfl) (fun _ => rfl) (fun _ => rfl)
        (fun _ => rfl) (fun _ _ => rfl)
      simp [List.countP_append, List.countP_cons, hstat, hpp, isDispatchEvent]
  · rw [crawl_next_events_doc m config env c r ct hn hf hct (by simpa using hhtml)]
    have hpd := countP_parse_document_zero config r c isDispatchEvent
      (fun _ => rfl) (fun _ _ => rfl)
    simp [List.countP_append, List.countP_cons, hstat, hpd, isDispatchEvent]

theorem reportedLists_append (l1 l2 : List Event) :
    reportedLists (l1 ++ l2) = reportedLists l1 ++ reportedLists l2 := by
  simp [reportedLists, List.filterMap_append]

theorem reportedLists_status (code : Nat) (url : String) :
    reportedLists (issue_warning_from_status_code code url) = [] := by
  unfold issue_warning_from_status_code reportedLists
  split <;> simp

theorem reportedLists_parse_page (m : UrlModel) (config : CrawlerConfig)
    (sd : ScrapedData) (r : Response) (c : CrawlerURL) :
    reportedLists (parse_page m config sd r c) =
      [if config.scrape_links then
        sd.refs.map (fun page =>
          CrawlerURL.fromUrl m (m.join_url c.url (encodeSpaces page.trim)) config.allow_query)
       else []] := by
  have hnil : ∀ l : List Event, (∀ ev ∈ l, ∀ l2, ev ≠ Event.reported l2) →
      reportedLists l = [] := by
    intro l h
    unfold reportedLists
    rw [List.filterMap_eq_nil_iff]
    intro a ha
    cases a <;> first | rfl | exact absurd rfl (h _ ha _)
  unfold parse_page
  rw [reportedLists_append, reportedLists_append, reportedLists_append,
    reportedLists_append]
  rw [hnil _ ?he, hnil _ ?hp, hnil _ ?hs, hnil _ ?hr]
  case he =>
    intro ev hev l2
    obtain ⟨x, -, rfl⟩ := List.mem_map.mp (mem_of_mem_ite_nil hev)
    exact Event.noConfusion
  case hp =>
    intro ev hev l2
    obtain ⟨x, -, rfl⟩ := List.mem_map.mp (mem_of_mem_ite_nil hev)
    exact Event.noConfusion
  case hs =>
    intro ev hev l2
    obtain ⟨x, -, rfl⟩ := List.mem_map.mp (mem_of_mem_ite_nil hev)
    exact Event.noConfusion
  case hr =>
    intro ev hev l2
    obtain ⟨x, -, rfl⟩ := List.mem_map.mp (mem_of_mem_ite_nil hev)
    exact Event.noConfusion
  simp [reportedLists]

/-- C3: when the scheduler returns no next URL, `crawl_next` moves to the
terminal state: it emits exactly the accumulator `end()` call, performs no
fetch, extraction or frontier update and recomputes no delay; and over a
whole crawl driven by `crawl_loop`, a frontier that becomes exhausted
triggers exactly one `end()` call. -/
theorem frontier_exhaustion_ends_once (m : UrlModel) (config : CrawlerConfig)
    (env : CycleEnv) (envs : List CycleEnv) :
    (env.next_url = none →
      crawl_next m config env =
        { events := [Event.ended], newDelay := none, result := false }) ∧
    endedCount (crawl_loop m config envs) =
      (if envs.any (fun e2 => e2.next_url.isNone) then 1 else 0) := by
  constructor
  · intro h
    simp [crawl_next, h]
  · induction envs with
    | nil => simp [crawl_loop, endedCount]
    | cons env2 rest ih =>
      rcases hn : env2.next_url with _ | c
      · have hterm : crawl_next m config env2 =
            { events := [Event.ended], newDelay := none, result := false } := by
          simp [crawl_next, hn]
        simp [crawl_loop, hterm, endedCount, hn]
      · have hres : (crawl_next m config env2).result = true := by
          simp [crawl_next, hn]
        have h0 : endedCount (crawl_next m config env2).events = 0 := by
          rw [endedCount, List.countP_eq_zero]
          intro a ha hEq
          rw [beq_iff_eq] at hEq
          exact ended_notin_crawl_next m config env2 c hn (hEq ▸ ha)
        rw [crawl_loop]
        simp only [hres, if_true]
        rw [endedCount_append, h0, ih]
        simp [hn]

/-- C4: every fetched response with a declared content type is dispatched to
exactly one extraction variant: the HTML variant iff the content type
declares HTML (substring test), the document variant for every other
declared content type; and a non-HTML response whose extension is not in
the recognized set yields no record at all (neither page nor document). -/
theorem content_type_selects_variant (m : UrlModel) (config : CrawlerConfig)
    (env : CycleEnv) (c : CrawlerURL) (r : Response) (ct : String)
    (hn : env.next_url = some c) (hf : env.fetch = Except.ok r)
    (hct : r.content_type = some ct) :
    (crawl_next m config env).events.countP isDispatchEvent = 1 ∧
    (pyContains ct "text/html" = true →
      Event.dispatchedPage c.url ∈ (crawl_next m config env).events ∧
      (crawl_next m config env).events.countP isDocRecordEvent = 0) ∧
    (pyContains ct "text/html" = false →
      Event.dispatchedDocument c.url ∈ (crawl_next m config env).events ∧
      (crawl_next m config env).events.countP isPageRecordEvent = 0 ∧
      (r.extension ∉ config.documents →
        (crawl_next m config env).events.countP isRecordEvent = 0)) := by
  refine ⟨crawl_next_dispatch_count m config env c r ct hn hf hct, ?_, ?_⟩
  · intro hhtml
    have hstat := countP_status_zero r.status_code c.url isDocRecordEvent rfl rfl
    rcases hs : env.scrape with e | sd
    · rw [crawl_next_events_html_err m config env c r ct e hn hf hct hhtml hs]
      constructor
      · simp
      · simp [List.countP_append, List.countP_cons, hstat, isDocRecordEvent]
    · rw [crawl_next_events_html_ok m config env c r ct sd hn hf hct hhtml hs]
      have hpp := countP_parse_page_zero m config sd r c isDocRecordEvent
        (fun _ => rfl) (fun _ => rfl) (fun _ => rfl) (fun _ => rfl)
        (fun _ => rfl) (fun _ _ => rfl)
      constructor
      · simp
      · simp [List.countP_append, List.countP_cons, hstat, hpp, isDocRecordEvent]
  · intro hhtml
    rw [crawl_next_events_doc m config env c r ct hn hf hct hhtml]
    have hstat := countP_status_zero r.status_code c.url isPageRecordEvent rfl rfl
    have hpd := countP_parse_document_zero config r c isPageRecordEvent
      (fun _ => rfl) (fun _ _ => rfl)
    refine ⟨by simp, ?_, ?_⟩
    · simp [List.countP_append, List.countP_cons, hstat, hpd, isPageRecordEvent]
    · intro hx
      have hstat2 := countP_status_zero r.status_code c.url isRecordEvent rfl rfl
      rw [parse_document_no_record config r c hx]
      simp [List.countP_append, List.countP_cons, hstat2, isRecordEvent]

/-- C5: an extraction/parse failure raised during the HTML parse is
contained: the cycle still returns `True`, the driver loop continues past
it, a warning tagged with that URL is emitted, and a cycle returns `False`
only on frontier exhaustion — no fetch or parse failure is fatal. -/
theorem parse_failure_isolated (m : UrlModel) (config : CrawlerConfig) (env : CycleEnv)
    (rest : List CycleEnv) (c : CrawlerURL) (r : Response) (ct e : String)
    (hn : env.next_url = some c) (hf : env.fetch = Except.ok r)
    (hct : r.content_type = some ct) (hhtml : pyContains ct "text/html" = true)
    (hs : env.scrape = Except.error e) :
    (crawl_next m config env).result = true ∧
    Event.warned e c.url ∈ (crawl_next m config env).events ∧
    crawl_loop m config (env :: rest) =
      (crawl_next m config env).events ++ crawl_loop m config rest ∧
    (∀ env2, (crawl_next m config env2).result = false → env2.next_url = none) := by
  have hres : (crawl_next m config env).result = true := by simp [crawl_next, hn]
  refine ⟨hres, ?_, ?_, ?_⟩
  · rw [crawl_next_events_html_err m config env c r ct e hn hf hct hhtml hs]
    simp
  · rw [crawl_loop]
    simp only [hres, if_true]
  · intro env2 h2
    rcases hn2 : env2.next_url with _ | c2
    · rfl
    · simp [crawl_next, hn2] at h2

/-- C6: the status-code check runs on every fetched response before any
extraction event (it is a prefix of the trace and contains no dispatch);
an anomalous (4xx/5xx) status emits a warning for that URL, and extraction
is still attempted: whenever a content type is declared, the trace contains
exactly one dispatch event regardless of the status code. -/
theorem status_checked_before_extraction (m : UrlModel) (config : CrawlerConfig)
    (env : CycleEnv) (c : CrawlerURL) (r : Response)
    (hn : env.next_url = some c) (hf : env.fetch = Except.ok r) :
    (∃ t, (crawl_next m config env).events =
        issue_warning_from_status_code r.status_code c.url ++ t) ∧
    (anomalous_code r.status_code = true →
      Event.warned (statusWarnMsg r.status_code) c.url ∈ (crawl_next m config env).events) ∧
    (issue_warning_from_status_code r.status_code c.url).countP isDispatchEvent = 0 ∧
    (∀ ct, r.content_type = some ct →
      (crawl_next m config env).events.countP isDispatchEvent = 1) := by
  have hpre : ∃ t, (crawl_next m config env).events =
      issue_warning_from_status_code r.status_code c.url ++ t := by
    rcases hct : r.content_type with _ | ct
    · exact ⟨[], by rw [crawl_next_events_noct m config env c r hn hf hct]; simp⟩
    · by_cases hhtml : pyContains ct "text/html"
      · rcases hs : env.scrape with e | sd
        · refine ⟨[Event.dispatchedPage c.url] ++ [Event.warned e c.url, Event.reported []], ?_⟩
          rw [crawl_next_events_html_err m config env c r ct e hn hf hct hhtml hs]
          simp
        · exact ⟨Event.dispatchedPage c.url :: parse_page m config sd r c,
            crawl_next_events_html_ok m config env c r ct sd hn hf hct hhtml hs⟩
      · exact ⟨Event.dispatchedDocument c.url :: parse_document config r c,
          crawl_next_events_doc m config env c r ct hn hf hct (by simpa using hhtml)⟩
  refine ⟨hpre, ?_, countP_status_zero r.status_code c.url isDispatchEvent rfl rfl, ?_⟩
  · intro hanom
    obtain ⟨t, ht⟩ := hpre
    rw [ht, List.mem_append]
    left
    unfold issue_warning_from_status_code
    simp [hanom]
  · intro ct hct
    exact crawl_next_dispatch_count m config env c r ct hn hf hct

/-- C7: with link scraping enabled, the candidates passed to
`report_found_urls` are exactly the scraped href/src references in order of
first appearance, each stripped of surrounding whitespace, spaces
percent-encoded as %20, resolved against the just-visited URL and wrapped
with the configured query policy; with link scraping disabled, the empty
list is reported. -/
theorem links_reported_in_order (m : UrlModel) (config : CrawlerConfig)
    (env : CycleEnv) (c : CrawlerURL) (r : Response) (ct : String) (sd : ScrapedData)
    (hn : env.next_url = some c) (hf : env.fetch = Except.ok r)
    (hct : r.content_type = some ct) (hhtml : pyContains ct "text/html" = true)
    (hs : env.scrape = Except.ok sd) :
    reportedLists (crawl_next m config env).events =
      [if config.scrape_links then
        sd.refs.map (fun page =>
          CrawlerURL.fromUrl m (m.join_url c.url (encodeSpaces page.trim)) config.allow_query)
       else []] := by
  rw [crawl_next_events_html_ok m config env c r ct sd hn hf hct hhtml hs,
    reportedLists_append, reportedLists_status]
  have : reportedLists (Event.dispatchedPage c.url :: parse_page m config sd r c) =
      reportedLists (parse_page m config sd r c) := by
    simp [reportedLists]
  rw [this, reportedLists_parse_page]
  simp

/-- C8: for a non-HTML response, exactly one document record (carrying the
response path) is appended when the extension is in the recognized set, and
no record and no error is produced otherwise; in both cases exactly one
`report_found_urls` call with zero found URLs is made. -/
theorem document_record_gating (m : UrlModel) (config : CrawlerConfig)
    (env : CycleEnv) (c : CrawlerURL) (r : Response) (ct : String)
    (hn : env.next_url = some c) (hf : env.fetch = Except.ok r)
    (hct : r.content_type = some ct) (hhtml : pyContains ct "text/html" = false) :
    reportedLists (crawl_next m config env).events = [[]] ∧
    (r.extension ∈ config.documents →
      (crawl_next m config env).events.countP isDocRecordEvent = 1 ∧
      Event.addedDocument c.netloc ⟨r.size, ct, c.path⟩ ∈ (crawl_next m config env).events) ∧
    (r.extension ∉ config.documents →
      (crawl_next m config env).events.countP isRecordEvent = 0) := by
  have hev := crawl_next_events_doc m config env c r ct hn hf hct hhtml
  refine ⟨?_, ?_, ?_⟩
  · rw [hev, reportedLists_append, reportedLists_status]
    by_cases hx : r.extension ∈ config.documents
    · rw [parse_document_record config r c hx]
      simp [reportedLists]
    · rw [parse_document_no_record config r c hx]
      simp [reportedLists]
  · intro hx
    have hstat := countP_status_zero r.status_code c.url isDocRecordEvent rfl rfl
    have hrec := parse_document_record config r c hx
    rw [hev, hrec]
    constructor
    · simp [List.countP_append, List.countP_cons, hstat, isDocRecordEvent]
    · rw [hct]
      simp [Option.getD]
  · intro hx
    have hstat := countP_status_zero r.status_code c.url isRecordEvent rfl rfl
    rw [hev, parse_document_no_record config r c hx]
    simp [List.countP_append, List.countP_cons, hstat, isRecordEvent]


/-- Witness for C3 at a concrete exhausted frontier. -/
theorem frontier_exhaustion_ends_once_witness :
    crawl_next mTriv cfgTriv envEnd =
      { events := [Event.ended], newDelay := none, result := false } :=
  (frontier_exhaustion_ends_once mTriv cfgTriv envEnd []).1 rfl

/-- Witness for C4 at a concrete zip-document response. -/
theorem content_type_selects_variant_witness :
    (crawl_next mTriv cfgTriv envZip).events.countP isDispatchEvent = 1 :=
  (content_type_selects_variant mTriv cfgTriv envZip urlA respZip
    "application/zip" rfl rfl rfl).1

/-- Witness for C5 at a concrete failing HTML parse. -/
theorem parse_failure_isolated_witness :
    (crawl_next mTriv cfgTriv envHtmlBad).result = true ∧
    Event.warned "bad markup" urlA.url ∈ (crawl_next mTriv cfgTriv envHtmlBad).events :=
  ⟨(parse_failure_isolated mTriv cfgTriv envHtmlBad [] urlA respHtml
      "text/html; charset=utf-8" "bad markup" rfl rfl rfl (by decide) rfl).1,
   (parse_failure_isolated mTriv cfgTriv envHtmlBad [] urlA respHtml
      "text/html; charset=utf-8" "bad markup" rfl rfl rfl (by decide) rfl).2.1⟩

/-- Witness for C6 at a concrete 404 response. -/
theorem status_checked_before_extraction_witness :
    Event.warned (statusWarnMsg respZip.status_code) urlA.url ∈
      (crawl_next mTriv cfgTriv envZip).events :=
  (status_checked_before_extraction mTriv cfgTriv envZip urlA respZip rfl rfl).2.1
    (by decide)

/-- Witness for C7 at a concrete scraped page. -/
theorem links_reported_in_order_witness :
    reportedLists (crawl_next mTriv cfgTriv envHtml).events =
      [if cfgTriv.scrape_links then
        sdA.refs.map (fun page =>
          CrawlerURL.fromUrl mTriv (mTriv.join_url urlA.url (encodeSpaces page.trim))
            cfgTriv.allow_query)
       else []] :=
  links_reported_in_order mTriv cfgTriv envHtml urlA respHtml
    "text/html; charset=utf-8" sdA rfl rfl rfl (by decide) rfl

/-- Witness for C8 at a concrete recognized zip extension. -/
theorem document_record_gating_witness :
    (crawl_next mTriv cfgTriv envZip).events.countP isDocRecordEvent = 1 :=
  ((document_record_gating mTriv cfgTriv envZip urlA respZip "application/zip"
      rfl rfl rfl (by decide)).2.1 (by decide)).1

end Arachnid
